import Mathlib

/-!
Verification development for the OLAP cubing pipeline of the smart-sales
repository (`src/analytics_project/olap/cubing_sales_growth.py`).

The pipeline is shallowly embedded: pandas dataframes become lists of rows
(association lists from column name to scalar value), pandas scalar values
become `RawVal`, numeric values become `ℚ` (with `Option ℚ` for NaN where a
column can genuinely hold NaN), and the IEEE special values produced by the
growth computation become `GVal`.  Each `_add_*` helper of the source file
becomes a per-row Lean function of the same name (minus the leading
underscore), and the pipeline entry point `create_olap_cube` is the
composition of the embedded phases exactly as in the source.

String handling notes: Lean core string functions use well-founded recursion
which the kernel cannot evaluate, so the string operations needed by the
model (strip, lower, title, split, numeric parsing) are implemented here by
structural recursion over the character list of the string.  They model the
ASCII behaviour of the corresponding Python operations; the repository's
data (column names, region labels, ISO dates, decimal numerals) is ASCII.
-/

namespace SmartSales

/-! ## Character-list string utilities -/

/-- ASCII whitespace, as stripped by Python `str.strip` / `str.trim`. -/
def isWs (c : Char) : Bool :=
  c = ' ' || c = '\t' || c = '\n' || c = '\r'

/-- Strip leading and trailing whitespace (Python `.strip()`). -/
def stripStr (s : String) : String :=
  ⟨((s.data.dropWhile isWs).reverse.dropWhile isWs).reverse⟩

/-- ASCII lower-casing of one character (Python `.lower()` on ASCII). -/
def lowerChar (c : Char) : Char :=
  if 'A' ≤ c ∧ c ≤ 'Z' then Char.ofNat (c.toNat + 32) else c

/-- ASCII upper-casing of one character (Python `.upper()` on ASCII). -/
def upperChar (c : Char) : Char :=
  if 'a' ≤ c ∧ c ≤ 'z' then Char.ofNat (c.toNat - 32) else c

/-- Lower-case a string (Python `str.lower`, used for table-name matching). -/
def lowerStr (s : String) : String :=
  ⟨s.data.map lowerChar⟩

/-- ASCII letter test (Python `str.title` treats letters as cased). -/
def isAlphaChar (c : Char) : Bool :=
  ('A' ≤ c ∧ c ≤ 'Z') || ('a' ≤ c ∧ c ≤ 'z')

/-- Helper for `titleStr`: the boolean records whether the previous
character was a letter (then we are inside a word). -/
def titleAux : Bool → List Char → List Char
  | _, [] => []
  | prevAlpha, c :: rest =>
    let out := if isAlphaChar c then (if prevAlpha then lowerChar c else upperChar c) else c
    out :: titleAux (isAlphaChar c) rest

/-- Python `str.title`: first letter of every word upper-cased, the rest
lower-cased; word boundaries are non-letter characters. -/
def titleStr (s : String) : String :=
  ⟨titleAux false s.data⟩

/-- Split a character list at every occurrence of the separator character. -/
def splitChar (sep : Char) : List Char → List (List Char)
  | [] => [[]]
  | c :: cs =>
    let r := splitChar sep cs
    if c = sep then [] :: r
    else
      match r with
      | h :: t => (c :: h) :: t
      | [] => [[c]]

/-- Split a string on a single-character separator (models `str.split` /
`Series.str.split` on the separators used by the pipeline). -/
def splitStr (sep : Char) (s : String) : List String :=
  (splitChar sep s.data).map (fun l => ⟨l⟩)

/-- Decimal digit test. -/
def isDigitChar (c : Char) : Bool :=
  '0' ≤ c ∧ c ≤ '9'

/-- Parse a nonempty all-digit character list as a natural number. -/
def digitsToNat : List Char → Option Nat
  | [] => none
  | l =>
    if l.all isDigitChar then
      some (l.foldl (fun acc c => acc * 10 + (c.toNat - 48)) 0)
    else none

/-- Parse a nonempty all-digit string as a natural number. -/
def strToNat (s : String) : Option Nat :=
  digitsToNat s.data

/-- Lexicographic order on character lists (Python compares strings by
code points). -/
def charListLt : List Char → List Char → Bool
  | [], [] => false
  | [], _ :: _ => true
  | _ :: _, [] => false
  | a :: as, b :: bs =>
    if a = b then charListLt as bs else decide (a < b)

/-- Strict string order by code points, as used by pandas when sorting
string-valued columns. -/
def strLt (a b : String) : Bool :=
  charListLt a.data b.data

/-- Render a natural number in decimal. -/
def natToStr (n : Nat) : String :=
  ⟨natToDigits n⟩
where
  natToDigits (n : Nat) : List Char :=
    let rec go : Nat → Nat → List Char → List Char
      | _, 0, acc => acc
      | fuel + 1, m, acc =>
        if m < 10 then Char.ofNat (48 + m) :: acc
        else go fuel (m / 10) (Char.ofNat (48 + m % 10) :: acc)
      | 0, _, acc => acc
    if n = 0 then ['0'] else go n n []

/-- Render an integer in decimal (Python `str` of an `int`). -/
def intToStr (i : Int) : String :=
  if i < 0 then ⟨'-' :: (natToStr i.natAbs).data⟩ else natToStr i.natAbs

/-! ## Scalar values

`RawVal` models a pandas scalar cell: a string, a number, or a missing
value.  Missing values read from the warehouse or introduced by a left
join are `NaN` in pandas; `RawVal.null` models that missing scalar
(`str(nan) = "nan"`).  Numbers are modelled as exact rationals; the model
does not distinguish int64 from float64 columns, and renders integral
numbers the way `astype(str)` renders an int64 column. -/

inductive RawVal where
  | str (s : String)
  | num (q : ℚ)
  | null
deriving DecidableEq, Repr

/-- Number of decimal digits needed to write `q` as a finite decimal, if at
most 30 suffice (binary floats in the pipeline's domain are such). -/
def decDigits (q : ℚ) : Option Nat :=
  (List.range 31).find? (fun k => (q * (10 : ℚ) ^ k).den = 1)

/-- Render a rational in decimal notation.  Integral values print like
Python ints (the warehouse's id columns are int64, so `astype(str)` of an
id prints without a decimal point).  Finite decimals print with a point;
other rationals (unreachable from decimal inputs) print as a fraction. -/
def ratToStr (q : ℚ) : String :=
  if q.den = 1 then intToStr q.num
  else
    match decDigits q with
    | some k =>
      let scaled := (q * (10 : ℚ) ^ k).num
      let sign : String := if scaled < 0 then "-" else ""
      let digits := (natToStr scaled.natAbs).data
      let padded := if digits.length < k + 1 then
          (List.replicate (k + 1 - digits.length) '0') ++ digits
        else digits
      let intPart : List Char := padded.take (padded.length - k)
      let fracPart : List Char := padded.drop (padded.length - k)
      sign ++ ⟨intPart⟩ ++ "." ++ ⟨fracPart⟩
    | none => intToStr q.num ++ "/" ++ natToStr q.den

/-- Python `str()` of a pandas scalar, as applied by `astype(str)`:
strings unchanged, numbers in decimal, the missing scalar prints "nan". -/
def pyStr : RawVal → String
  | .str s => s
  | .num q => ratToStr q
  | .null => "nan"

/-- Parse an unsigned decimal numeral, integer part and optional fraction
part separated by a point (the grammar accepted by `pd.to_numeric` for the
pipeline's data; exponent notation is outside the modelled input domain). -/
def parseUnsignedDec (t : String) : Option ℚ :=
  match splitStr '.' t with
  | [i] => (digitsToNat i.data).map (fun n => (n : ℚ))
  | [i, f] =>
    if i.data.isEmpty ∧ f.data.isEmpty then none
    else
      match (if i.data.isEmpty then some 0 else digitsToNat i.data),
            (if f.data.isEmpty then some 0 else digitsToNat f.data) with
      | some ip, some fp => some ((ip : ℚ) + (fp : ℚ) / (10 : ℚ) ^ f.data.length)
      | _, _ => none
  | _ => none

/-- Parse a signed decimal numeral, tolerating surrounding whitespace. -/
def parseDecimal (s : String) : Option ℚ :=
  let t := stripStr s
  match t.data with
  | '-' :: rest => (parseUnsignedDec ⟨rest⟩).map (fun q => -q)
  | '+' :: rest => parseUnsignedDec ⟨rest⟩
  | _ => parseUnsignedDec t

/-- `pd.to_numeric(v, errors="coerce")` on one scalar: numbers pass
through, numeric strings are parsed, everything else (including missing)
coerces to NaN, modelled as `none`. -/
def to_numeric : RawVal → Option ℚ
  | .num q => some q
  | .str s => parseDecimal s
  | .null => none

/-- Parse an ISO `YYYY-MM-DD` date (with optional whitespace around it) to
`(year, month)`.  This models `pd.to_datetime(v, errors="coerce")` on the
pipeline's date strings; values that do not parse become NaT (`none`).
Numeric epoch timestamps are outside the modelled input domain. -/
def parseDateISO (s : String) : Option (Nat × Nat) :=
  match (splitStr '-' (stripStr s)).map strToNat with
  | [some y, some m, some d] =>
    if 1 ≤ m ∧ m ≤ 12 ∧ 1 ≤ d ∧ d ≤ 31 then some (y, m) else none
  | _ => none

/-- Quarter label of a date, as produced by
`Series.dt.to_period("Q").astype(str)`: the string `YYYYQn`. -/
def quarterLabel (ym : Nat × Nat) : String :=
  natToStr ym.1 ++ "Q" ++ natToStr ((ym.2 - 1) / 3 + 1)

/-- `pd.to_datetime` on one scalar, reduced to the quarter label it will
produce: missing and unparseable values give `none` (NaT). -/
def dateToQuarter : RawVal → Option String
  | .str s => (parseDateISO s).map quarterLabel
  | _ => none

/-! ## Tables and warehouse ingestion (`ingest_warehouse`) -/

/-- One dataframe row: an association list from column name to scalar. -/
abbrev Row := List (String × RawVal)

/-- A dataframe: its column list plus its rows.  Looking a column up in a
row goes through the association list; a column that is absent reads as
the missing scalar, as a pandas lookup of a never-assigned cell would. -/
structure Table where
  cols : List String
  rows : List Row
deriving DecidableEq, Repr

/-- Read one cell of a row. -/
def getVal (row : Row) (c : String) : RawVal :=
  match row.find? (fun p => p.1 == c) with
  | some p => p.2
  | none => .null

/-- A store: the warehouse database, a list of named tables. -/
abbrev Store := List (String × Table)

/-- `_find_table`: lower-case the stored table names, then return the first
candidate whose lower-casing is among them. -/
def find_table (store : Store) (candidates : List String) : Option String :=
  candidates.find? (fun c => store.any (fun t => lowerStr t.1 == lowerStr c))

/-- Fetch the table behind a matched candidate name (SQLite table names are
case-insensitive, so `SELECT * FROM c` reads the matching table). -/
def lookupTable (store : Store) (c : String) : Table :=
  match store.find? (fun t => lowerStr t.1 == lowerStr c) with
  | some t => t.2
  | none => ⟨[], []⟩

/-- Strip whitespace from all column names of a table
(`df.columns = [c.strip() for c in df.columns]`). -/
def stripCols (t : Table) : Table :=
  ⟨t.cols.map stripStr, t.rows.map (fun r => r.map (fun p => (stripStr p.1, p.2)))⟩

/-- Left join on a shared key column with pandas suffixing: columns of the
right side that collide with a left column get the suffix, the left side
keeps its names; unmatched left rows get null-filled right columns. -/
def mergeLeft (l : Table) (r : Table) (key : String) (suffix : String) : Table :=
  let rcols := r.cols.filter (fun c => c ≠ key)
  let rename := fun c => if l.cols.contains c then c ++ suffix else c
  { cols := l.cols ++ rcols.map rename
    rows := l.rows.flatMap (fun lrow =>
      let ms := r.rows.filter (fun rrow => getVal rrow key == getVal lrow key)
      match ms with
      | [] => [lrow ++ rcols.map (fun c => (rename c, RawVal.null))]
      | _ => ms.map (fun rrow => lrow ++ rcols.map (fun c => (rename c, getVal rrow c)))) }

/-- `ingest_warehouse`: locate the sales table (candidates "sales", "sale",
then "transactions"; fatal `RuntimeError` if none), the optional product
table ("product", "products", "store") and customer table ("customer",
"customers"); strip column names; left-join products on `product_id` and
customers on `customer_id` when both sides have the key. -/
def ingest_warehouse (store : Store) : Except String Table :=
  match find_table store ["sales", "sale"] <|> find_table store ["transactions"] with
  | none => .error "No sales table found in warehouse"
  | some salesName =>
    let sales_df := stripCols (lookupTable store salesName)
    let products_df := match find_table store ["product", "products", "store"] with
      | some n => stripCols (lookupTable store n)
      | none => ⟨[], []⟩
    let customers_df := match find_table store ["customer", "customers"] with
      | some n => stripCols (lookupTable store n)
      | none => ⟨[], []⟩
    let merged := sales_df
    let merged :=
      if ¬ products_df.rows.isEmpty then
        if merged.cols.contains "product_id" ∧ products_df.cols.contains "product_id" then
          mergeLeft merged products_df "product_id" "_prod"
        else merged
      else merged
    let merged :=
      if ¬ customers_df.rows.isEmpty then
        if merged.cols.contains "customer_id" ∧ customers_df.cols.contains "customer_id" then
          mergeLeft merged customers_df "customer_id" "_cust"
        else merged
      else merged
    .ok merged

/-! ## Column resolution (`_first_existing_column`, `_extract_columns`) -/

/-- `_first_existing_column`: first candidate present in the column list. -/
def first_existing_column (cols : List String) (candidates : List String) : Option String :=
  candidates.find? (fun c => cols.contains c)

/-- The resolved column names for the seven concepts of the pipeline. -/
structure ExtractedCols where
  sale_date_col : Option String
  units_col : Option String
  sale_amount_col : Option String
  cogs_col : Option String
  product_name_col : Option String
  product_unitprice_col : Option String
  region_col : Option String
deriving DecidableEq, Repr

/-- `_extract_columns`, with the exact candidate lists of the source. -/
def extract_columns (cols : List String) : ExtractedCols :=
  { sale_date_col := first_existing_column cols
      ["sale_date", "SaleDate", "date", "saleDate", "transaction_date"]
    units_col := first_existing_column cols
      ["units", "quantity", "quantity_sold", "units_sold", "qty"]
    sale_amount_col := first_existing_column cols
      ["sale_amount", "SaleAmount", "amount", "gross_amount", "saleamount", "total"]
    cogs_col := first_existing_column cols
      ["cogs", "cost_of_goods_sold", "cost", "unit_cost"]
    product_name_col := first_existing_column cols ["product_name", "product", "name"] <|>
      first_existing_column cols ["product_name_prod", "name_prod"]
    product_unitprice_col := first_existing_column cols
      ["unitprice", "unit_price", "price", "unitPrice", "UnitPrice", "price_prod"]
    region_col := first_existing_column cols
      ["region", "customer_region", "customerregion", "region_name", "region_cust"] <|>
      first_existing_column cols ["region_prod"] }

/-! ## Per-row metric derivation (`_add_*` helpers)

Each dataframe-wide `_add_*` assignment of the source is value-wise, so it
is embedded as a function of one row (given the resolved column names).
The region derivation additionally filters rows; that happens in
`prepare_dataframe` below, exactly once and last, as in the source. -/

/-- `_add_sale_quarter` on one row.  With a date column, the quarter column
holds `astype(str)` of the parsed period: the label for a parsed date and
the string "NaT" for an unparseable or missing date.  Without a date
column the quarter column is `pd.NA`, modelled as `none`. -/
def sale_quarter_of (sale_date_col : Option String) (row : Row) : Option String :=
  match sale_date_col with
  | some c =>
    some (match dateToQuarter (getVal row c) with
      | some lbl => lbl
      | none => "NaT")
  | none => none

/-- `_add_units_sold` on one row: coerced quantity with NaN filled by 0, or
the constant 1 when no quantity-like column exists. -/
def units_sold_of (units_col : Option String) (row : Row) : ℚ :=
  match units_col with
  | some c => (to_numeric (getVal row c)).getD 0
  | none => 1

/-- `_add_sales_revenue` on one row: the coerced amount (NaN filled by 0),
else coerced unit price (NaN filled by 0) times units sold, else 0. -/
def sales_revenue_of (sale_amount_col product_unitprice_col : Option String)
    (units_sold : ℚ) (row : Row) : ℚ :=
  match sale_amount_col with
  | some c => (to_numeric (getVal row c)).getD 0
  | none =>
    match product_unitprice_col with
    | some c => (to_numeric (getVal row c)).getD 0 * units_sold
    | none => 0

/-- `_add_cogs_total` on one row: coerced unit price (NaN filled by 0)
times units sold; else the coerced cost column (NaN filled by 0); else NaN
for every row (`np.nan`, modelled as `none`). -/
def cogs_total_of (product_unitprice_col cogs_col : Option String)
    (units_sold : ℚ) (row : Row) : Option ℚ :=
  match product_unitprice_col with
  | some c => some ((to_numeric (getVal row c)).getD 0 * units_sold)
  | none =>
    match cogs_col with
    | some c => some ((to_numeric (getVal row c)).getD 0)
    | none => none

/-- `_add_gross_profit` on one row: revenue minus cogs; NaN propagates. -/
def gross_profit_of (sales_revenue : ℚ) (cogs_total : Option ℚ) : Option ℚ :=
  cogs_total.map (fun c => sales_revenue - c)

/-- `_add_product_name` on one row: `astype(str)` of the resolved name
column when it exists; else `astype(str)` of `product_id` when that column
exists; else the literal `None` column, modelled as `none`. -/
def product_name_of (product_name_col : Option String) (cols : List String)
    (row : Row) : Option String :=
  match product_name_col with
  | some c =>
    if cols.contains c then some (pyStr (getVal row c))
    else if cols.contains "product_id" then some (pyStr (getVal row "product_id"))
    else none
  | none =>
    if cols.contains "product_id" then some (pyStr (getVal row "product_id"))
    else none

/-- The normalization chain of `_add_region` on one value: `astype(str)`,
strip, exact value "nan" becomes missing, truncate at the first underscore
or hyphen, title-case. -/
def normalizeRegion (v : RawVal) : Option String :=
  let s := stripStr (pyStr v)
  if s == "nan" then none
  else some (titleStr ⟨s.data.takeWhile (fun c => c ≠ '_' ∧ c ≠ '-')⟩)

/-- `_add_region` on one row, before the drop: normalize the resolved
region column; else normalize `customer_region` if that column exists
(dead in practice, since the resolver would have found it); else `pd.NA`. -/
def region_of (region_col : Option String) (cols : List String) (row : Row) :
    Option String :=
  match region_col with
  | some c => normalizeRegion (getVal row c)
  | none =>
    if cols.contains "customer_region" then normalizeRegion (getVal row "customer_region")
    else none

/-- A derived row surviving to aggregation: the six computed fields of the
data model, with `region` a plain string because the region filter has
already run. -/
structure DRow where
  sale_quarter : Option String
  units_sold : ℚ
  sales_revenue : ℚ
  cogs_total : Option ℚ
  gross_profit : Option ℚ
  product_name : Option String
  region : String
deriving DecidableEq, Repr

/-- `_prepare_dataframe` on one row: run the derivations in source order
(quarter, units, revenue, cogs, profit, name, region) and apply the region
drop (`dropna` plus the filter against the empty string). -/
def prepareRow (ec : ExtractedCols) (cols : List String) (row : Row) : Option DRow :=
  let q := sale_quarter_of ec.sale_date_col row
  let units := units_sold_of ec.units_col row
  let rev := sales_revenue_of ec.sale_amount_col ec.product_unitprice_col units row
  let cogs := cogs_total_of ec.product_unitprice_col ec.cogs_col units row
  let profit := gross_profit_of rev cogs
  let pname := product_name_of ec.product_name_col cols row
  match region_of ec.region_col cols row with
  | some s =>
    if s = "" then none
    else some ⟨q, units, rev, cogs, profit, pname, s⟩
  | none => none

/-- `_prepare_dataframe` over the whole merged table. -/
def prepare_dataframe (t : Table) : List DRow :=
  t.rows.filterMap (prepareRow (extract_columns t.cols) t.cols)

/-! ## Cube aggregation (`_aggregate_cube`) -/

/-- A group key of the cube: (product_name, region, sale_quarter).
`groupby(..., dropna=False)` keeps missing keys as their own groups, so
the optional components stay optional. -/
abbrev CubeKey := Option String × String × Option String

/-- Group key of a derived row. -/
def rowKey (r : DRow) : CubeKey :=
  (r.product_name, r.region, r.sale_quarter)

/-- Distinct elements of a list, keeping first occurrences.  The `seen`
accumulator holds the keys already emitted. -/
def dedupAux {α : Type} [DecidableEq α] (seen : List α) : List α → List α
  | [] => []
  | k :: ks =>
    if k ∈ seen then dedupAux seen ks
    else k :: dedupAux (k :: seen) ks

/-- The distinct group keys of the cube.  (pandas emits groups in sorted
key order; the cube is re-sorted before any order-sensitive step, so
first-occurrence order is an equivalent enumeration of the same groups.) -/
def dedupKeys {α : Type} [DecidableEq α] (l : List α) : List α :=
  dedupAux [] l

/-- One aggregated cube cell before the growth step: the key, the four
sums, and the two averages.  pandas `sum` skips NaN (an all-NaN group sums
to 0), so the summed fields are plain rationals; the averages are NaN
(`none`) when `units_sold` is 0. -/
structure CubeRow where
  product_name : Option String
  region : String
  sale_quarter : Option String
  units_sold : ℚ
  total_sales_revenue : ℚ
  total_cogs : ℚ
  gross_profit : ℚ
  average_selling_price : Option ℚ
  average_gross_profit : Option ℚ
deriving DecidableEq, Repr

/-- Build the cell of one group.  The guard `r["units_sold"] not in
(0, np.nan)` of the source reduces to `units ≠ 0`: summed units are never
NaN (each row's units is NaN-filled or the constant 1, and pandas sum
skips NaN anyway), and `nan in (0, nan)` never matches by equality. -/
def mkCell (k : CubeKey) (g : List DRow) : CubeRow :=
  let units := (g.map (fun r => r.units_sold)).sum
  let rev := (g.map (fun r => r.sales_revenue)).sum
  let cogs := (g.map (fun r => r.cogs_total.getD 0)).sum
  let profit := (g.map (fun r => r.gross_profit.getD 0)).sum
  { product_name := k.1
    region := k.2.1
    sale_quarter := k.2.2
    units_sold := units
    total_sales_revenue := rev
    total_cogs := cogs
    gross_profit := profit
    average_selling_price := if units ≠ 0 then some (rev / units) else none
    average_gross_profit := if units ≠ 0 then some (profit / units) else none }

/-- `_aggregate_cube`: group the derived rows by (product_name, region,
sale_quarter) with `dropna=False`, sum the four measures per group, and
compute the two averages; `sales_revenue` and `cogs_total` are renamed to
`total_sales_revenue` and `total_cogs` in the cell fields. -/
def aggregate_cube (rows : List DRow) : List CubeRow :=
  (dedupKeys (rows.map rowKey)).map
    (fun k => mkCell k (rows.filter (fun r => rowKey r == k)))

/-! ## Growth computation and finalization (`_compute_growth_and_finalize`) -/

/-- A float value of the growth column: a finite value, one of the IEEE
infinities produced by a zero denominator, or NaN. -/
inductive GVal where
  | num (q : ℚ)
  | posInf
  | negInf
  | nan
deriving DecidableEq, Repr

/-- `pct_change() * 100` between a previous and a current revenue, with
IEEE semantics for a zero previous value: `(cur - 0) / 0` is `+inf` for
positive `cur`, `-inf` for negative `cur`, and NaN for `0 / 0`. -/
def pctChange100 (prev cur : ℚ) : GVal :=
  if prev = 0 then
    if 0 < cur then .posInf
    else if cur < 0 then .negInf
    else .nan
  else .num ((cur - prev) / prev * 100)

/-- Round a rational to 2 decimal places, half to even (numpy rounding, as
applied by `Series.round(2)`).  The half-to-even tie rule matters only for
values lying exactly on a hundredths midpoint. -/
def roundHalfEven (q : ℚ) : ℤ :=
  let f := Int.fdiv q.num q.den
  let r := q - (f : ℚ)
  if r < 1 / 2 then f
  else if 1 / 2 < r then f + 1
  else if f % 2 = 0 then f else f + 1

/-- `Series.round(2)` on one finite value. -/
def round2 (q : ℚ) : ℚ :=
  (roundHalfEven (q * 100) : ℚ) / 100

/-- `Series.round(2)` on a growth value: infinities and NaN unchanged. -/
def round2G : GVal → GVal
  | .num q => .num (round2 q)
  | g => g

/-- `Series.fillna(0)` on a growth value: NaN becomes 0, infinities stay. -/
def fillna0 : GVal → GVal
  | .nan => .num 0
  | g => g

/-- Sort key for a quarter label under `pd.PeriodIndex(..., freq="Q")`:
`some (some k)` for the chronological position of a parseable `YYYYQn`
label, `some none` for NaT (the "NaT" string or a missing label, sorted
last), and `none` when the label would make `PeriodIndex` raise (which
sends the whole sort to the lexical fallback). -/
def quarterSortKey : Option String → Option (Option Nat)
  | none => some none
  | some s =>
    if s = "NaT" then some none
    else
      match splitStr 'Q' s with
      | [ys, qs] =>
        match strToNat ys, strToNat qs with
        | some y, some q => if 1 ≤ q ∧ q ≤ 4 then some (some (y * 4 + q)) else none
        | _, _ => none
      | _ => none

/-- Order on optional strings with missing values last (pandas
`sort_values` uses `na_position="last"`). -/
def optStrLt : Option String → Option String → Bool
  | some x, some y => strLt x y
  | some _, none => true
  | none, _ => false

/-- Order on optional period positions with NaT last. -/
def optNatLe : Option Nat → Option Nat → Bool
  | some x, some y => decide (x ≤ y)
  | some _, none => true
  | none, none => true
  | none, some _ => false

/-- Row order for the period branch of the sort: by product_name, then
region, then chronological quarter. -/
def cubeLePeriod (a b : CubeRow) : Bool :=
  if a.product_name ≠ b.product_name then optStrLt a.product_name b.product_name
  else if a.region ≠ b.region then strLt a.region b.region
  else optNatLe (quarterSortKey a.sale_quarter).join (quarterSortKey b.sale_quarter).join

/-- Order on optional quarter labels for the lexical fallback branch. -/
def optStrLe (a b : Option String) : Bool :=
  optStrLt a b || a == b

/-- Row order for the lexical fallback branch of the sort: by
product_name, then region, then the raw quarter string. -/
def cubeLeLex (a b : CubeRow) : Bool :=
  if a.product_name ≠ b.product_name then optStrLt a.product_name b.product_name
  else if a.region ≠ b.region then strLt a.region b.region
  else optStrLe a.sale_quarter b.sale_quarter

/-- Insertion into a sorted list. -/
def insertBy {α : Type} (le : α → α → Bool) (a : α) : List α → List α
  | [] => [a]
  | b :: bs => if le a b then a :: b :: bs else b :: insertBy le a bs

/-- Insertion sort.  `sort_values` uses an unstable quicksort, but the
composite keys of a cube are pairwise distinct (one cell per group key and
quarter labels map injectively to periods within a run), so every
comparison sort produces the same row order. -/
def sortBy {α : Type} (le : α → α → Bool) : List α → List α
  | [] => []
  | a :: as => insertBy le a (sortBy le as)

/-- The sort of `_compute_growth_and_finalize`: try to parse every quarter
label as a period and sort chronologically; if any label fails (raising in
`pd.PeriodIndex`), fall back to lexical ordering of the raw labels. -/
def sortCube (cube : List CubeRow) : List CubeRow :=
  if cube.all (fun c => (quarterSortKey c.sale_quarter).isSome)
  then sortBy cubeLePeriod cube
  else sortBy cubeLeLex cube

/-- The (product_name, region) series key of the growth computation. -/
def grKey (c : CubeRow) : Option String × String :=
  (c.product_name, c.region)

/-- Raw growth value of one row of the sorted cube, given the previous
row's series key and revenue.  A row whose product_name is missing belongs
to no series: the growth groupby uses the default `dropna=True`, so such
rows get NaN growth.  Otherwise a row continuing its predecessor's series
gets `pct_change * 100` against the predecessor's (unrounded) revenue, and
the first row of a series gets NaN (pct_change of a first observation). -/
def growthStep (prev : Option ((Option String × String) × ℚ)) (c : CubeRow) : GVal :=
  if c.product_name.isNone then GVal.nan
  else
    match prev with
    | some (k, pr) =>
      if k = grKey c then pctChange100 pr c.total_sales_revenue else GVal.nan
    | none => GVal.nan

/-- Walk the sorted cube computing each row's raw growth value; the state
carries the previous row's series key and revenue. -/
def addGrowthAux : Option ((Option String × String) × ℚ) → List CubeRow →
    List (CubeRow × GVal)
  | _, [] => []
  | prev, c :: rest =>
    (c, growthStep prev c) :: addGrowthAux (some (grKey c, c.total_sales_revenue)) rest

/-- A finalized output row: the ten columns of the output schema, with all
numeric columns rounded to 2 decimals and NaN growth filled with 0. -/
structure CubeRowF where
  product_name : Option String
  region : String
  sale_quarter : Option String
  units_sold : ℚ
  total_sales_revenue : ℚ
  sales_growth_pct : GVal
  total_cogs : ℚ
  gross_profit : ℚ
  average_selling_price : Option ℚ
  average_gross_profit : Option ℚ
deriving DecidableEq, Repr

/-- Round every numeric column of a row to 2 decimals (`round(2)` over the
numeric column list) and fill NaN growth with 0 (first observations). -/
def roundFill (p : CubeRow × GVal) : CubeRowF :=
  { product_name := p.1.product_name
    region := p.1.region
    sale_quarter := p.1.sale_quarter
    units_sold := round2 p.1.units_sold
    total_sales_revenue := round2 p.1.total_sales_revenue
    sales_growth_pct := fillna0 (round2G p.2)
    total_cogs := round2 p.1.total_cogs
    gross_profit := round2 p.1.gross_profit
    average_selling_price := p.1.average_selling_price.map round2
    average_gross_profit := p.1.average_gross_profit.map round2 }

/-- `_compute_growth_and_finalize` at the row level: sort the cube, attach
quarter-over-quarter growth per (product_name, region) series, round and
fill.  The column-level side (placeholder insertion and the fixed column
order) is modelled separately by `finalize_columns` below. -/
def compute_growth_and_finalize (cube : List CubeRow) : List CubeRowF :=
  (addGrowthAux none (sortCube cube)).map roundFill

/-! ## Output schema (column-level model of the final selection) -/

/-- The fixed output column list of `_compute_growth_and_finalize`. -/
def desired_cols : List String :=
  ["product_name", "region", "sale_quarter", "units_sold", "total_sales_revenue",
   "sales_growth_pct", "total_cogs", "gross_profit", "average_selling_price",
   "average_gross_profit"]

/-- The columns of the cube as it reaches the final selection: group keys,
the four renamed sums, the two averages, then the helper period column and
the growth column added by `_compute_growth_and_finalize`. -/
def growth_stage_cols : List String :=
  ["product_name", "region", "sale_quarter", "units_sold", "total_sales_revenue",
   "total_cogs", "gross_profit", "average_selling_price", "average_gross_profit",
   "_sale_quarter_period", "sales_growth_pct"]

/-- The final column selection: append a `pd.NA` placeholder column for
every expected column that is absent, then select exactly `desired_cols`
in order. -/
def finalize_columns (cols : List String) : List String :=
  let withPlaceholders := cols ++ desired_cols.filter (fun c => ¬ cols.contains c)
  desired_cols.filter (fun c => withPlaceholders.contains c)

/-- `create_olap_cube`: ingest and merge the warehouse; an empty merged
table short-circuits to an empty dataframe (with no columns and no file
write); otherwise prepare, aggregate, compute growth and finalize, then
write the cube.  The boolean records whether the output file was written;
a raised error (`.error`) writes nothing. -/
def create_olap_cube (store : Store) : Except String (List CubeRowF × Bool) :=
  match ingest_warehouse store with
  | .error e => .error e
  | .ok df =>
    if df.rows.isEmpty then .ok ([], false)
    else
      .ok (compute_growth_and_finalize (aggregate_cube (prepare_dataframe df)), true)

/-- The column list of the dataframe returned by `create_olap_cube`: the
empty-input short-circuit returns a bare `pd.DataFrame()`, which has no
columns; otherwise the finalized selection. -/
def create_olap_cube_schema (store : Store) : Except String (List String) :=
  match ingest_warehouse store with
  | .error e => .error e
  | .ok df =>
    if df.rows.isEmpty then .ok []
    else .ok (finalize_columns growth_stage_cols)

/-! ## Concrete stores, rows and cubes used as test inputs -/

/-- One-row store without a date column: exercises the region
normalization ("north-x" truncates and title-cases to "North"). -/
def c1Store : Store :=
  [("sales", ⟨["product_id", "amount", "region"],
    [[("product_id", RawVal.num 2), ("amount", RawVal.num 5),
      ("region", RawVal.str "north-x")]]⟩)]

/-- The single output row of `c1Store`. -/
def c1Row : CubeRowF :=
  { product_name := some "2", region := "North", sale_quarter := none,
    units_sold := 1, total_sales_revenue := 5, sales_growth_pct := .num 0,
    total_cogs := 0, gross_profit := 0,
    average_selling_price := some 5, average_gross_profit := some 0 }

/-- A row whose region value is missing. -/
def c1BadRow : Row := [("region", RawVal.null)]

/-- One derived row whose units coerced to 0. -/
def c2Rows : List DRow := [⟨none, 0, 5, none, none, some "A", "R"⟩]

/-- The cell aggregated from `c2Rows`: zero units, undefined averages. -/
def c2Cell : CubeRow :=
  { product_name := some "A", region := "R", sale_quarter := none,
    units_sold := 0, total_sales_revenue := 5, total_cogs := 0, gross_profit := 0,
    average_selling_price := none, average_gross_profit := none }

/-- Two sales rows with revenues 3 and 4 in consecutive quarters: the
exact growth percentage 100/3 is not representable in 2 decimals. -/
def c3Store : Store :=
  [("sales", ⟨["product_id", "amount", "region", "date"],
    [[("product_id", RawVal.num 1), ("amount", RawVal.num 3),
      ("region", RawVal.str "W"), ("date", RawVal.str "2024-01-15")],
     [("product_id", RawVal.num 1), ("amount", RawVal.num 4),
      ("region", RawVal.str "W"), ("date", RawVal.str "2024-04-20")]]⟩)]

/-- First-quarter cell of a two-cell series with revenues 3 then 4. -/
def c3CubeA : CubeRow :=
  ⟨some "P", "W", some "2024Q1", 1, 3, 0, 0, some 3, some 0⟩

/-- Second-quarter cell of the series of `c3CubeA`. -/
def c3CubeB : CubeRow :=
  ⟨some "P", "W", some "2024Q2", 1, 4, 0, 0, some 4, some 0⟩

/-- A row whose unit-price value fails numeric coercion. -/
def c4Row : Row := [("unit_price", RawVal.str "abc"), ("quantity", RawVal.num 2)]

/-- The two-row scenario store of the spec's test properties. -/
def c5Store : Store :=
  [("sales", ⟨["product_id", "amount", "region", "date"],
    [[("product_id", RawVal.num 1), ("amount", RawVal.num 100),
      ("region", RawVal.str "west_1"), ("date", RawVal.str "2024-01-15")],
     [("product_id", RawVal.num 1), ("amount", RawVal.num 150),
      ("region", RawVal.str "West"), ("date", RawVal.str "2024-04-20")]]⟩)]

/-- A store holding no sales-like table. -/
def c6Store : Store := [("inventory", ⟨["x"], []⟩)]

/-- A store whose sales table exists but has zero rows. -/
def c7EmptyStore : Store := [("sales", ⟨["product_id"], []⟩)]

/-- A store with one nonempty sales table. -/
def c7Store : Store :=
  [("sales", ⟨["product_id", "region"],
    [[("product_id", RawVal.num 1), ("region", RawVal.str "N")]]⟩)]

/-- The merged table that `ingest_warehouse` produces from `c7Store`. -/
def c7Df : Table :=
  ⟨["product_id", "region"], [[("product_id", RawVal.num 1), ("region", RawVal.str "N")]]⟩

/-- Derived rows carrying both forms of the unknown-quarter marker: the
"NaT" string (date column present, unparseable value) and the missing
label (no date column). -/
def c8Rows : List DRow :=
  [⟨some "NaT", 1, 2, none, none, some "P", "East"⟩,
   ⟨none, 1, 3, none, none, some "P", "East"⟩]

/-- First-quarter cell with zero revenue. -/
def c9CubeA : CubeRow :=
  ⟨some "P", "W", some "2024Q1", 1, 0, 0, 0, some 0, some 0⟩

/-- Second-quarter cell with nonzero revenue after a zero quarter. -/
def c9CubeB : CubeRow :=
  ⟨some "P", "W", some "2024Q2", 1, 5, 0, 0, some 5, some 0⟩

/-- Second-quarter cell with zero revenue after a zero quarter. -/
def c9CubeD : CubeRow :=
  ⟨some "P", "W", some "2024Q2", 1, 0, 0, 0, some 0, some 0⟩

/-- Columns of a merged table that has a product-name column. -/
def c10Cols : List String := ["product_name", "product_id"]

/-- A row with a missing product name but a present product id. -/
def c10Row : Row := [("product_name", RawVal.null), ("product_id", RawVal.num 7)]

/-! ## Structural lemmas about the embedded phases -/

theorem mem_dedupAux {α : Type} [DecidableEq α] (l : List α) :
    ∀ (seen : List α) (x : α), x ∈ dedupAux seen l ↔ (x ∈ l ∧ x ∉ seen) := by
  induction l with
  | nil => intro seen x; simp [dedupAux]
  | cons k ks ih =>
    intro seen x
    by_cases hk : k ∈ seen
    · rw [dedupAux, if_pos hk, ih]
      simp only [List.mem_cons]
      constructor
      · rintro ⟨hx, hs⟩; exact ⟨Or.inr hx, hs⟩
      · rintro ⟨hx | hx, hs⟩
        · exact absurd (hx.symm ▸ hk) hs
        · exact ⟨hx, hs⟩
    · rw [dedupAux, if_neg hk]
      simp only [List.mem_cons, ih, List.mem_cons]
      by_cases hxk : x = k
      · subst hxk; simp [hk]
      · simp [hxk]

theorem mem_dedupKeys {α : Type} [DecidableEq α] {l : List α} {x : α} :
    x ∈ dedupKeys l ↔ x ∈ l := by
  rw [dedupKeys, mem_dedupAux]
  simp

theorem cellKey_mkCell (k : CubeKey) (g : List DRow) :
    ((mkCell k g).product_name, (mkCell k g).region, (mkCell k g).sale_quarter) = k := by
  obtain ⟨a, b, c⟩ := k
  rfl

theorem aggregate_cube_keys (rows : List DRow) :
    (aggregate_cube rows).map (fun c => (c.product_name, c.region, c.sale_quarter)) =
      dedupKeys (rows.map rowKey) := by
  rw [aggregate_cube, List.map_map]
  have : ∀ k ∈ dedupKeys (rows.map rowKey),
      ((fun c => (c.product_name, c.region, c.sale_quarter)) ∘
        (fun k => mkCell k (rows.filter (fun r => rowKey r == k)))) k = id k := by
    intro k _
    exact cellKey_mkCell k _
  rw [List.map_congr_left this, List.map_id]

theorem exists_row_of_mem_aggregate {rows : List DRow} {c : CubeRow}
    (h : c ∈ aggregate_cube rows) :
    ∃ r ∈ rows, rowKey r = (c.product_name, c.region, c.sale_quarter) := by
  rw [aggregate_cube] at h
  obtain ⟨k, hk, rfl⟩ := List.mem_map.mp h
  rw [cellKey_mkCell]
  obtain ⟨r, hr, hrk⟩ := List.mem_map.mp (mem_dedupKeys.mp hk)
  exact ⟨r, hr, hrk⟩

theorem perm_insertBy {α : Type} (le : α → α → Bool) (a : α) (l : List α) :
    (insertBy le a l).Perm (a :: l) := by
  induction l with
  | nil => rfl
  | cons b bs ih =>
    rw [insertBy]
    split
    · rfl
    · exact (ih.cons b).trans (List.Perm.swap a b bs)

theorem perm_sortBy {α : Type} (le : α → α → Bool) (l : List α) :
    (sortBy le l).Perm l := by
  induction l with
  | nil => rfl
  | cons a as ih =>
    rw [sortBy]
    exact (perm_insertBy le a (sortBy le as)).trans (ih.cons a)

theorem perm_sortCube (cube : List CubeRow) : (sortCube cube).Perm cube := by
  rw [sortCube]
  split
  · exact perm_sortBy _ _
  · exact perm_sortBy _ _

theorem mem_sortCube {cube : List CubeRow} {c : CubeRow} :
    c ∈ sortCube cube ↔ c ∈ cube :=
  (perm_sortCube cube).mem_iff

theorem addGrowthAux_map_fst (l : List CubeRow) :
    ∀ p, (addGrowthAux p l).map Prod.fst = l := by
  induction l with
  | nil => intro p; rfl
  | cons c rest ih =>
    intro p
    rw [addGrowthAux, List.map_cons, ih]

theorem addGrowthAux_length (l : List CubeRow) (p : Option ((Option String × String) × ℚ)) :
    (addGrowthAux p l).length = l.length := by
  have := congrArg List.length (addGrowthAux_map_fst l p)
  rwa [List.length_map] at this

theorem addGrowthAux_head (l : List CubeRow) (p : Option ((Option String × String) × ℚ))
    (b : CubeRow) (h : l[0]? = some b) :
    (addGrowthAux p l)[0]? = some (b, growthStep p b) := by
  cases l with
  | nil => simp at h
  | cons c rest =>
    simp only [List.getElem?_cons_zero, Option.some.injEq] at h
    subst h
    rw [addGrowthAux]
    simp

theorem addGrowthAux_succ (l : List CubeRow) :
    ∀ (p : Option ((Option String × String) × ℚ)) (i : Nat) (a b : CubeRow),
      l[i]? = some a → l[i + 1]? = some b →
      (addGrowthAux p l)[i + 1]? =
        some (b, growthStep (some (grKey a, a.total_sales_revenue)) b) := by
  induction l with
  | nil => intro p i a b ha _; simp at ha
  | cons c rest ih =>
    intro p i a b ha hb
    cases i with
    | zero =>
      simp only [List.getElem?_cons_zero, Option.some.injEq] at ha
      subst ha
      simp only [List.getElem?_cons_succ] at hb
      rw [addGrowthAux]
      simpa using addGrowthAux_head rest (some (grKey c, c.total_sales_revenue)) b hb
    | succ j =>
      simp only [List.getElem?_cons_succ] at ha hb
      rw [addGrowthAux]
      simpa using ih (some (grKey c, c.total_sales_revenue)) j a b ha hb

theorem growthStep_none (b : CubeRow) : growthStep none b = GVal.nan := by
  rw [growthStep]
  split <;> rfl

theorem region_ne_of_mem_prepare {t : Table} {r : DRow}
    (h : r ∈ prepare_dataframe t) : r.region ≠ "" := by
  rw [prepare_dataframe] at h
  obtain ⟨row, _, heq⟩ := List.mem_filterMap.mp h
  rw [prepareRow] at heq
  split at heq
  · split at heq
    · exact absurd heq (by simp)
    · rename_i s hs hne
      obtain rfl := (Option.some.injEq _ _).mp heq
      exact hne
  · exact absurd heq (by simp)

/-! ## The claims -/

set_option maxRecDepth 1000000
set_option maxHeartbeats 2000000

/-- C1: for every input store, every row of the final cube has a non-empty
region string; and a row whose normalized region is missing or empty after
the normalization chain (trim, textual "nan" to missing, truncation at the
first underscore or hyphen, title-casing) is dropped by `prepareRow`
before aggregation, so it never reaches the cube. -/
theorem c1_cube_region_nonempty :
    (∀ (store : Store) (out : List CubeRowF × Bool),
        create_olap_cube store = .ok out → ∀ row ∈ out.1, row.region ≠ "")
    ∧ (∀ (ec : ExtractedCols) (cols : List String) (row : Row),
        (region_of ec.region_col cols row = none ∨
          region_of ec.region_col cols row = some "") →
        prepareRow ec cols row = none) := by
  constructor
  · intro store out h row hrow
    rw [create_olap_cube] at h
    cases hing : ingest_warehouse store with
    | error e => rw [hing] at h; exact absurd h (by simp)
    | ok df =>
      rw [hing] at h
      have h3 : (if df.rows.isEmpty = true then
            (Except.ok ([], false) : Except String (List CubeRowF × Bool))
          else Except.ok
            (compute_growth_and_finalize (aggregate_cube (prepare_dataframe df)), true)) =
          Except.ok out := h
      by_cases hemp : df.rows.isEmpty
      · rw [if_pos hemp] at h3
        injection h3 with h2
        rw [← h2] at hrow
        simp at hrow
      · rw [if_neg hemp] at h3
        injection h3 with h2
        rw [← h2] at hrow
        rw [compute_growth_and_finalize] at hrow
        obtain ⟨p, hp, rfl⟩ := List.mem_map.mp hrow
        have hfst : p.1 ∈ sortCube (aggregate_cube (prepare_dataframe df)) := by
          have := List.mem_map_of_mem Prod.fst hp
          rwa [addGrowthAux_map_fst] at this
        obtain ⟨r, hr, hkey⟩ :=
          exists_row_of_mem_aggregate (mem_sortCube.mp hfst)
        have hreg : r.region = p.1.region := by
          have := congrArg (fun t : CubeKey => t.2.1) hkey
          simpa [rowKey] using this
        have hne := region_ne_of_mem_prepare hr
        rw [hreg] at hne
        exact hne
  · intro ec cols row hbad
    rcases hbad with hb | hb <;> simp [prepareRow, hb]

/-- Witness for C1 at a concrete store and a concrete dropped row. -/
theorem c1_witness :
    c1Row.region ≠ "" ∧
      prepareRow (extract_columns ["region"]) ["region"] c1BadRow = none :=
  ⟨c1_cube_region_nonempty.1 c1Store ([c1Row], true) (by with_unfolding_all rfl)
      c1Row (by simp),
   c1_cube_region_nonempty.2 (extract_columns ["region"]) ["region"] c1BadRow
      (by with_unfolding_all decide)⟩

/-- C2: in every aggregated cube cell, `average_selling_price` and
`average_gross_profit` are the undefined marker (NaN, modelled `none`)
exactly when the cell's summed `units_sold` is 0, and otherwise equal the
quotients `total_sales_revenue / units_sold` and
`gross_profit / units_sold`; the division is guarded, so no division
error can arise. -/
theorem c2_averages_undefined_iff_zero_units (rows : List DRow) (c : CubeRow)
    (h : c ∈ aggregate_cube rows) :
    (c.average_selling_price = none ↔ c.units_sold = 0)
    ∧ (c.units_sold ≠ 0 →
        c.average_selling_price = some (c.total_sales_revenue / c.units_sold))
    ∧ (c.average_gross_profit = none ↔ c.units_sold = 0)
    ∧ (c.units_sold ≠ 0 →
        c.average_gross_profit = some (c.gross_profit / c.units_sold)) := by
  rw [aggregate_cube] at h
  obtain ⟨k, hk, rfl⟩ := List.mem_map.mp h
  by_cases hu :
      ((rows.filter (fun r => rowKey r == k)).map (fun r => r.units_sold)).sum = 0
  · simp [mkCell, hu]
  · simp [mkCell, hu]

/-- Witness for C2 at a concrete one-row group with zero summed units. -/
theorem c2_witness :
    (c2Cell.average_selling_price = none ↔ c2Cell.units_sold = 0)
    ∧ (c2Cell.units_sold ≠ 0 →
        c2Cell.average_selling_price = some (c2Cell.total_sales_revenue / c2Cell.units_sold))
    ∧ (c2Cell.average_gross_profit = none ↔ c2Cell.units_sold = 0)
    ∧ (c2Cell.units_sold ≠ 0 →
        c2Cell.average_gross_profit = some (c2Cell.gross_profit / c2Cell.units_sold)) :=
  c2_averages_undefined_iff_zero_units c2Rows c2Cell (by with_unfolding_all decide)

/-- C4 as stated is false: when a unit-price (or cost) column exists, a
numeric-coercion failure in it is NaN-filled to 0 before the multiply, so
`cogs_total` becomes 0 for that row rather than propagating as undefined.
Here the unit price "abc" fails coercion yet `cogs_total` is `some 0`. -/
theorem c4_counterexample :
    to_numeric (getVal c4Row "unit_price") = none
    ∧ cogs_total_of (some "unit_price") none 2 c4Row = some 0
    ∧ (some (0 : ℚ)) ≠ (none : Option ℚ) :=
  ⟨by with_unfolding_all decide, by with_unfolding_all decide, by with_unfolding_all decide⟩

/-- C4 (amended): numeric-coercion failures become 0 for `units_sold` and
`sales_revenue`, and also become 0 (not NaN) for `cogs_total` when a
unit-price or cost column exists, because every branch applies
`fillna(0)`; `cogs_total` is undefined (NaN) only when neither a
unit-price nor a cost column exists, and then for every row. -/
theorem c4_coercion_failure_defaults :
    (∀ (row : Row) (c : String), to_numeric (getVal row c) = none →
        units_sold_of (some c) row = 0)
    ∧ (∀ (row : Row) (c : String) (p : Option String) (units : ℚ),
        to_numeric (getVal row c) = none →
        sales_revenue_of (some c) p units row = 0)
    ∧ (∀ (row : Row) (c : String) (units : ℚ),
        to_numeric (getVal row c) = none →
        sales_revenue_of none (some c) units row = 0)
    ∧ (∀ (row : Row) (c : String) (cg : Option String) (units : ℚ),
        to_numeric (getVal row c) = none →
        cogs_total_of (some c) cg units row = some 0)
    ∧ (∀ (row : Row) (c : String) (units : ℚ),
        to_numeric (getVal row c) = none →
        cogs_total_of none (some c) units row = some 0)
    ∧ (∀ (row : Row) (units : ℚ), cogs_total_of none none units row = none) := by
  refine ⟨?_, ?_, ?_, ?_, ?_, ?_⟩ <;> intros <;>
    simp_all [units_sold_of, sales_revenue_of, cogs_total_of]

/-- Witness for C4 (amended) at concrete failing values. -/
theorem c4_witness :
    units_sold_of (some "quantity") [("quantity", RawVal.str "oops")] = 0
    ∧ cogs_total_of none none 1 [] = none :=
  ⟨c4_coercion_failure_defaults.1 [("quantity", RawVal.str "oops")] "quantity"
      (by with_unfolding_all decide),
   c4_coercion_failure_defaults.2.2.2.2.2 [] 1⟩

/-- C8: aggregation groups by the exact tuple (product_name, region,
sale_quarter): the cube's key list is precisely the deduplicated key list
of the derived rows, and every derived row's key — including the
unknown-quarter markers ("NaT" and the missing label) — appears among the
cube's keys, so no row is excluded from grouping. -/
theorem c8_groupby_keeps_marker_keys :
    (∀ rows : List DRow,
        (aggregate_cube rows).map (fun c => (c.product_name, c.region, c.sale_quarter)) =
          dedupKeys (rows.map rowKey))
    ∧ (∀ (rows : List DRow) (r : DRow), r ∈ rows →
        rowKey r ∈
          (aggregate_cube rows).map (fun c => (c.product_name, c.region, c.sale_quarter))) := by
  refine ⟨aggregate_cube_keys, ?_⟩
  intro rows r hr
  rw [aggregate_cube_keys]
  exact mem_dedupKeys.mpr (List.mem_map_of_mem rowKey hr)

/-- Witness for C8: a row carrying the "NaT" marker is grouped under its
own key. -/
theorem c8_witness :
    rowKey (⟨some "NaT", 1, 2, none, none, some "P", "East"⟩ : DRow) ∈
      (aggregate_cube c8Rows).map (fun c => (c.product_name, c.region, c.sale_quarter)) :=
  c8_groupby_keeps_marker_keys.2 c8Rows _ (by with_unfolding_all decide)

/-- C10: the product_id fallback is decided per column, never per row:
whenever the resolved product-name column exists in the table, every row's
product_name is the string conversion of that column's value — in
particular a missing value becomes the literal string "nan" (its own group
key) instead of falling back to that row's product_id. -/
theorem c10_product_name_column_level :
    (∀ (cols : List String) (row : Row) (c : String), cols.contains c = true →
        product_name_of (some c) cols row = some (pyStr (getVal row c)))
    ∧ (∀ (cols : List String) (row : Row) (c : String), cols.contains c = true →
        getVal row c = RawVal.null →
        product_name_of (some c) cols row = some "nan") := by
  constructor
  · intro cols row c hc
    rw [product_name_of, if_pos hc]
  · intro cols row c hc hnull
    rw [product_name_of, if_pos hc, hnull]
    rfl

/-- Witness for C10: a null product name beside product_id 7 becomes
"nan", not "7". -/
theorem c10_witness :
    product_name_of (some "product_name") c10Cols c10Row = some "nan"
    ∧ some "nan" ≠ some (pyStr (getVal c10Row "product_id")) :=
  ⟨c10_product_name_column_level.2 c10Cols c10Row "product_name"
      (by with_unfolding_all decide) (by with_unfolding_all decide),
   by with_unfolding_all decide⟩

/-- C3 as stated is false in one respect: growth values are rounded to 2
decimal places before output.  With revenues 3 then 4 in consecutive
quarters the exact formula gives 100/3, but the cube reports 33.33. -/
theorem c3_counterexample :
    create_olap_cube c3Store = .ok
      ([{ product_name := some "1", region := "W", sale_quarter := some "2024Q1",
          units_sold := 1, total_sales_revenue := 3, sales_growth_pct := .num 0,
          total_cogs := 0, gross_profit := 0,
          average_selling_price := some 3, average_gross_profit := some 0 },
        { product_name := some "1", region := "W", sale_quarter := some "2024Q2",
          units_sold := 1, total_sales_revenue := 4, sales_growth_pct := .num (3333 / 100),
          total_cogs := 0, gross_profit := 0,
          average_selling_price := some 4, average_gross_profit := some 0 }], true)
    ∧ GVal.num ((3333 : ℚ) / 100) ≠ GVal.num (((4 : ℚ) - 3) / 3 * 100) :=
  ⟨by with_unfolding_all rfl, by with_unfolding_all decide⟩

/-- C3 (amended): for every (product_name, region) series with N quarters
present the output has exactly N growth values; the chronologically-first
value of every series is 0, never null; and every non-first value whose
predecessor revenue is nonzero equals
`(current - previous) / previous * 100` rounded to 2 decimal places
(zero-denominator cases follow the float semantics settled by C9). -/
theorem c3_growth_series_values (cube : List CubeRow) :
    ((compute_growth_and_finalize cube).length = cube.length)
    ∧ (∀ k : Option String × String,
        ((compute_growth_and_finalize cube).filter
            (fun x => (x.product_name, x.region) == k)).length =
          (cube.filter (fun c => grKey c == k)).length)
    ∧ (∀ b, (sortCube cube)[0]? = some b →
        ((compute_growth_and_finalize cube)[0]?).map (fun x => x.sales_growth_pct) =
          some (GVal.num 0))
    ∧ (∀ (i : Nat) (a b : CubeRow),
        (sortCube cube)[i]? = some a → (sortCube cube)[i + 1]? = some b →
        grKey a = grKey b → b.product_name ≠ none → a.total_sales_revenue ≠ 0 →
        ((compute_growth_and_finalize cube)[i + 1]?).map (fun x => x.sales_growth_pct) =
          some (GVal.num (round2 ((b.total_sales_revenue - a.total_sales_revenue) /
            a.total_sales_revenue * 100))))
    ∧ (∀ (i : Nat) (a b : CubeRow),
        (sortCube cube)[i]? = some a → (sortCube cube)[i + 1]? = some b →
        grKey a ≠ grKey b →
        ((compute_growth_and_finalize cube)[i + 1]?).map (fun x => x.sales_growth_pct) =
          some (GVal.num 0)) := by
  refine ⟨?_, ?_, ?_, ?_, ?_⟩
  · rw [compute_growth_and_finalize, List.length_map, addGrowthAux_length]
    exact (perm_sortCube cube).length_eq
  · intro k
    rw [compute_growth_and_finalize, ← List.countP_eq_length_filter,
      ← List.countP_eq_length_filter, List.countP_map]
    have hstep : ((fun x : CubeRowF => (x.product_name, x.region) == k) ∘ roundFill) =
        ((fun c : CubeRow => grKey c == k) ∘ Prod.fst) := rfl
    rw [hstep, ← List.countP_map, addGrowthAux_map_fst]
    exact (perm_sortCube cube).countP_eq _
  · intro b hb
    rw [compute_growth_and_finalize, List.getElem?_map,
      addGrowthAux_head (sortCube cube) none b hb, growthStep_none]
    rfl
  · intro i a b ha hb hk hpn hz
    rw [compute_growth_and_finalize, List.getElem?_map,
      addGrowthAux_succ (sortCube cube) none i a b ha hb]
    have hg : growthStep (some (grKey a, a.total_sales_revenue)) b =
        pctChange100 a.total_sales_revenue b.total_sales_revenue := by
      rw [growthStep, if_neg (by simpa [Option.isNone_iff_eq_none] using hpn)]
      rw [if_pos hk]
    rw [hg, pctChange100, if_neg hz]
    rfl
  · intro i a b ha hb hk
    rw [compute_growth_and_finalize, List.getElem?_map,
      addGrowthAux_succ (sortCube cube) none i a b ha hb]
    have hg : growthStep (some (grKey a, a.total_sales_revenue)) b = GVal.nan := by
      simp [growthStep, hk]
    rw [hg]
    rfl

/-- Witness for C3 (amended) on a concrete two-quarter series with
revenues 3 then 4. -/
theorem c3_witness :
    ((compute_growth_and_finalize [c3CubeA, c3CubeB]).length = 2)
    ∧ (((compute_growth_and_finalize [c3CubeA, c3CubeB])[0]?).map
        (fun x => x.sales_growth_pct) = some (GVal.num 0))
    ∧ (((compute_growth_and_finalize [c3CubeA, c3CubeB])[1]?).map
        (fun x => x.sales_growth_pct) =
        some (GVal.num (round2 ((c3CubeB.total_sales_revenue -
          c3CubeA.total_sales_revenue) / c3CubeA.total_sales_revenue * 100))))
    ∧ round2 (((4 : ℚ) - 3) / 3 * 100) = 3333 / 100 :=
  ⟨(c3_growth_series_values [c3CubeA, c3CubeB]).1,
   (c3_growth_series_values [c3CubeA, c3CubeB]).2.2.1 c3CubeA
      (by with_unfolding_all decide),
   (c3_growth_series_values [c3CubeA, c3CubeB]).2.2.2.1 0 c3CubeA c3CubeB
      (by with_unfolding_all decide) (by with_unfolding_all decide)
      (by with_unfolding_all decide) (by with_unfolding_all decide)
      (by with_unfolding_all decide),
   by with_unfolding_all rfl⟩

/-- C5: the two-row scenario — product_id 1, amounts 100 and 150, regions
"west_1" and "West", dates in 2024Q1 and 2024Q2, no product or customer
tables — produces exactly two cube cells, both with product_name "1" and
region "West", quarters "2024Q1" and "2024Q2", revenues 100 and 150, and
growth 0 then 50. -/
theorem c5_two_row_scenario :
    create_olap_cube c5Store = .ok
      ([{ product_name := some "1", region := "West", sale_quarter := some "2024Q1",
          units_sold := 1, total_sales_revenue := 100, sales_growth_pct := .num 0,
          total_cogs := 0, gross_profit := 0,
          average_selling_price := some 100, average_gross_profit := some 0 },
        { product_name := some "1", region := "West", sale_quarter := some "2024Q2",
          units_sold := 1, total_sales_revenue := 150, sales_growth_pct := .num 50,
          total_cogs := 0, gross_profit := 0,
          average_selling_price := some 150, average_gross_profit := some 0 }], true) := by
  with_unfolding_all rfl

/-- C6: when the store holds no table named (case-insensitively) "sales",
"sale" or "transactions", the pipeline raises the fatal missing-source
error; the run aborts before any output is produced, so nothing is written
(the model's write flag exists only on the ok path). -/
theorem c6_missing_sales_fatal (store : Store)
    (h : ∀ p ∈ store, lowerStr p.1 ≠ "sales" ∧ lowerStr p.1 ≠ "sale" ∧
      lowerStr p.1 ≠ "transactions") :
    create_olap_cube store = .error "No sales table found in warehouse"
    ∧ create_olap_cube_schema store = .error "No sales table found in warehouse" := by
  have e1 : lowerStr "sales" = "sales" := by with_unfolding_all decide
  have e2 : lowerStr "sale" = "sale" := by with_unfolding_all decide
  have e3 : lowerStr "transactions" = "transactions" := by with_unfolding_all decide
  have h1 : find_table store ["sales", "sale"] = none := by
    rw [find_table]
    apply List.find?_eq_none.mpr
    intro c hc hany
    simp only [List.mem_cons, List.not_mem_nil, or_false] at hc
    rw [List.any_eq_true] at hany
    obtain ⟨t, ht, hbeq⟩ := hany
    have heq := eq_of_beq hbeq
    rcases hc with rfl | rfl
    · rw [e1] at heq; exact (h t ht).1 heq
    · rw [e2] at heq; exact (h t ht).2.1 heq
  have h2 : find_table store ["transactions"] = none := by
    rw [find_table]
    apply List.find?_eq_none.mpr
    intro c hc hany
    simp only [List.mem_cons, List.not_mem_nil, or_false] at hc
    rw [List.any_eq_true] at hany
    obtain ⟨t, ht, hbeq⟩ := hany
    have heq := eq_of_beq hbeq
    subst hc
    rw [e3] at heq
    exact (h t ht).2.2 heq
  constructor
  · rw [create_olap_cube, ingest_warehouse, h1, h2]
    rfl
  · rw [create_olap_cube_schema, ingest_warehouse, h1, h2]
    rfl

/-- Witness for C6: a store holding only an "inventory" table. -/
theorem c6_witness :
    create_olap_cube c6Store = .error "No sales table found in warehouse" :=
  (c6_missing_sales_fatal c6Store (by with_unfolding_all decide)).1

/-- C7 as stated is false for empty runs: when the merged input is empty,
`create_olap_cube` returns a bare empty dataframe with no columns at all,
not the fixed ten-column schema. -/
theorem c7_counterexample :
    create_olap_cube_schema c7EmptyStore = .ok []
    ∧ create_olap_cube c7EmptyStore = .ok ([], false)
    ∧ ([] : List String) ≠ desired_cols :=
  ⟨by with_unfolding_all rfl, by with_unfolding_all rfl, by with_unfolding_all decide⟩

/-- C7 (amended): the final selection always yields exactly the fixed
ordered column list, any absent expected column having been added as an
undefined placeholder first; hence every run whose merged input is
nonempty returns a cube with exactly that schema.  (A run with empty
merged input instead returns an entirely empty, column-less table.) -/
theorem c7_schema_fixed_when_nonempty :
    (∀ cols : List String, finalize_columns cols = desired_cols)
    ∧ (∀ (store : Store) (df : Table), ingest_warehouse store = .ok df →
        df.rows ≠ [] → create_olap_cube_schema store = .ok desired_cols) := by
  have hfin : ∀ cols : List String, finalize_columns cols = desired_cols := by
    intro cols
    rw [finalize_columns]
    apply List.filter_eq_self.mpr
    intro c hc
    show List.elem c _ = true
    rw [List.elem_iff]
    by_cases hm : cols.contains c = true
    · exact List.mem_append.mpr (Or.inl (List.elem_iff.mp hm))
    · refine List.mem_append.mpr (Or.inr (List.mem_filter.mpr ⟨hc, ?_⟩))
      have hnm : c ∉ cols := fun hcm => hm (List.elem_iff.mpr hcm)
      simp [hnm]
  refine ⟨hfin, ?_⟩
  intro store df hdf hne
  rw [create_olap_cube_schema, hdf]
  have h3 : (if df.rows.isEmpty = true then (Except.ok [] : Except String (List String))
      else Except.ok (finalize_columns growth_stage_cols)) = Except.ok desired_cols := by
    rw [if_neg (by simpa [List.isEmpty_iff] using hne), hfin]
  exact h3

/-- Witness for C7 (amended) at a concrete one-row store. -/
theorem c7_witness :
    create_olap_cube_schema c7Store = .ok desired_cols :=
  c7_schema_fixed_when_nonempty.2 c7Store c7Df (by with_unfolding_all rfl)
    (by with_unfolding_all decide)

/-- C9: in the growth computation a zero previous revenue never raises and
is not turned into the first-observation default: with nonzero current
revenue the reported growth is an infinite value (neither 0 nor NaN), and
with zero current revenue the 0/0 NaN is filled to a reported 0. -/
theorem c9_zero_denominator_growth (cube : List CubeRow) (i : Nat) (a b : CubeRow)
    (ha : (sortCube cube)[i]? = some a) (hb : (sortCube cube)[i + 1]? = some b)
    (hk : grKey a = grKey b) (hpn : b.product_name ≠ none)
    (hz : a.total_sales_revenue = 0) :
    (0 < b.total_sales_revenue →
      ((compute_growth_and_finalize cube)[i + 1]?).map (fun x => x.sales_growth_pct) =
        some GVal.posInf)
    ∧ (b.total_sales_revenue < 0 →
        ((compute_growth_and_finalize cube)[i + 1]?).map (fun x => x.sales_growth_pct) =
          some GVal.negInf)
    ∧ (b.total_sales_revenue = 0 →
        ((compute_growth_and_finalize cube)[i + 1]?).map (fun x => x.sales_growth_pct) =
          some (GVal.num 0))
    ∧ (b.total_sales_revenue ≠ 0 →
        ((compute_growth_and_finalize cube)[i + 1]?).map (fun x => x.sales_growth_pct) ≠
            some (GVal.num 0)
          ∧ ((compute_growth_and_finalize cube)[i + 1]?).map (fun x => x.sales_growth_pct) ≠
            some GVal.nan) := by
  have hstep : ((compute_growth_and_finalize cube)[i + 1]?).map (fun x => x.sales_growth_pct) =
      some (fillna0 (round2G (pctChange100 a.total_sales_revenue b.total_sales_revenue))) := by
    rw [compute_growth_and_finalize, List.getElem?_map,
      addGrowthAux_succ (sortCube cube) none i a b ha hb]
    have hg : growthStep (some (grKey a, a.total_sales_revenue)) b =
        pctChange100 a.total_sales_revenue b.total_sales_revenue := by
      rw [growthStep, if_neg (by simpa [Option.isNone_iff_eq_none] using hpn)]
      rw [if_pos hk]
    rw [hg]
    rfl
  rw [pctChange100, if_pos hz] at hstep
  refine ⟨?_, ?_, ?_, ?_⟩
  · intro hpos
    rw [if_pos hpos] at hstep
    exact hstep
  · intro hneg
    rw [if_neg (not_lt.mpr hneg.le), if_pos hneg] at hstep
    exact hstep
  · intro hzero
    rw [if_neg (by simp [hzero]), if_neg (by simp [hzero])] at hstep
    exact hstep
  · intro hne
    rcases lt_trichotomy b.total_sales_revenue 0 with hlt | hzq | hgt
    · rw [if_neg (not_lt.mpr hlt.le), if_pos hlt] at hstep
      rw [hstep]
      constructor <;> simp [fillna0, round2G]
    · exact absurd hzq hne
    · rw [if_pos hgt] at hstep
      rw [hstep]
      constructor <;> simp [fillna0, round2G]

/-- Witness for C9: revenue 0 then 5 produces +inf growth; revenue 0 then
0 produces growth 0. -/
theorem c9_witness :
    (((compute_growth_and_finalize [c9CubeA, c9CubeB])[1]?).map
        (fun x => x.sales_growth_pct) = some GVal.posInf)
    ∧ (((compute_growth_and_finalize [c9CubeA, c9CubeD])[1]?).map
        (fun x => x.sales_growth_pct) = some (GVal.num 0)) :=
  ⟨(c9_zero_denominator_growth [c9CubeA, c9CubeB] 0 c9CubeA c9CubeB
      (by with_unfolding_all decide) (by with_unfolding_all decide)
      (by with_unfolding_all decide) (by with_unfolding_all decide)
      (by with_unfolding_all decide)).1 (by with_unfolding_all decide),
   ((c9_zero_denominator_growth [c9CubeA, c9CubeD] 0 c9CubeA c9CubeD
      (by with_unfolding_all decide) (by with_unfolding_all decide)
      (by with_unfolding_all decide) (by with_unfolding_all decide)
      (by with_unfolding_all decide)).2.2.1 (by with_unfolding_all decide))⟩

end SmartSales
